import Mathlib

/-
Verification of the netmiko-collector concurrent command execution engine.

This development shallowly embeds the engine found in
src/netmiko_collector/{models.py, ssh.py, executor.py}:

  * the data model (Device, Command, ExecutionResult, ExecutionStatus),
  * the per-device SSH session (SSHConnection.connect retry loop,
    SSHConnection.execute_command, execute_commands_on_device),
  * the orchestrator (ExecutionStats, execute_on_devices,
    execute_on_device_batches).

The external SSH library (netmiko) is modelled by an explicit environment
oracle: for each connection attempt number, the outcome of the
ConnectHandler call (success, authentication error, timeout, or other
error), and for each command, the outcome of send_command.  Exceptions are
modelled by explicit outcome datatypes; time.sleep is modelled by
accumulating the slept seconds.  ThreadPoolExecutor completion order is
nondeterministic in the source; the embedding sequentialises the per-device
work in submission order, which is one admissible completion order, and all
properties proved here (result counts, per-result field invariants,
statistics counters) are independent of the completion order.  Wall-clock
fields (timestamp, duration, start_time, end_time) are omitted from the
embedding since no property here concerns them.
-/

namespace NetmikoCollector

/-- Embeds models.py ExecutionStatus: status of command execution. -/
inductive ExecutionStatus where
  | PENDING
  | RUNNING
  | SUCCESS
  | FAILED
  | TIMEOUT
  | AUTH_FAILED
  | SKIPPED
deriving DecidableEq, Repr

/-- Embeds models.py DeviceType: supported network device types. -/
inductive DeviceType where
  | CISCO_IOS
  | CISCO_NXOS
  | CISCO_XE
  | CISCO_XR
  | ARISTA_EOS
  | JUNIPER_JUNOS
  | HP_COMWARE
  | HP_PROCURVE
  | PALO_ALTO
  | FORTINET
  | DELL_OS10
  | GENERIC
deriving DecidableEq, Repr

/-- Embeds models.py AuthMethod: SSH authentication methods. -/
inductive AuthMethod where
  | PASSWORD
  | KEY
  | AGENT
deriving DecidableEq, Repr

/-- Embeds models.py Device (a frozen dataclass, so Python equality is
structural equality over all fields, matching derived DecidableEq).
The tags frozenset is modelled as a list; no property here depends on it. -/
structure Device where
  hostname : String
  device_type : DeviceType := DeviceType.CISCO_IOS
  username : Option String := none
  password : Option String := none
  port : Nat := 22
  auth_method : AuthMethod := AuthMethod.PASSWORD
  ssh_key_file : Option String := none
  proxy_jump : Option String := none
  ssh_config : Option String := none
  tags : List String := []
  enabled_commands : Bool := true
deriving DecidableEq, Repr

/-- Embeds models.py Command (frozen dataclass, structural equality). -/
structure Command where
  command : String
  description : Option String := none
  timeout : Nat := 60
  requires_enable : Bool := false
  expect_string : Option String := none
deriving DecidableEq, Repr

/-- Embeds models.py ExecutionResult.  The Python field error has declared
type str with default value the empty string, but every construction site in
ssh.py and executor.py passes it explicitly, with None on the success path;
it is therefore modelled as Option String (none on success).  The timestamp
and duration fields are omitted (wall clock). -/
structure ExecutionResult where
  device : Device
  command : Command
  status : ExecutionStatus
  output : String := ""
  error : Option String := none
  retries : Nat := 0
deriving DecidableEq, Repr

/-- Embeds ExecutionResult.is_success (models.py line 206). -/
def ExecutionResult.is_success (r : ExecutionResult) : Bool :=
  r.status == ExecutionStatus.SUCCESS

/-- Embeds ExecutionResult.is_failure (models.py line 211): status is
FAILED or TIMEOUT. -/
def ExecutionResult.is_failure (r : ExecutionResult) : Bool :=
  r.status == ExecutionStatus.FAILED || r.status == ExecutionStatus.TIMEOUT

/-- Embeds ssh.py SSHConfig: configuration for SSH connection behavior. -/
structure SSHConfig where
  timeout : Nat := 60
  session_timeout : Nat := 60
  max_retries : Nat := 3
  retry_delay : Nat := 5
  read_timeout_override : Option Nat := none
  session_log : Option String := none
deriving DecidableEq, Repr

/-- Fault model for one ConnectHandler call: it either returns a
connection, or raises NetmikoAuthenticationException,
NetmikoTimeoutException, or some other Exception (with message). -/
inductive ConnectOutcome where
  | ok
  | authErr (msg : String)
  | timeoutErr (msg : String)
  | otherErr (msg : String)
deriving DecidableEq, Repr

/-- Fault model for one send_command call on a live connection: it either
returns output text, or raises NetmikoTimeoutException, or some other
Exception. -/
inductive CommandOutcome where
  | output (text : String)
  | timeoutErr (msg : String)
  | otherErr (msg : String)
deriving DecidableEq, Repr

/-- Environment oracle for one device: the outcome of the k-th
ConnectHandler call (attempts are numbered from 1, matching the Python
range(1, max_retries + 1) loop variable), and the outcome of send_command
for each command. -/
structure DeviceBehavior where
  connectAt : Nat → ConnectOutcome
  run : Command → CommandOutcome

/-- Typed connection error raised out of SSHConnection.connect. -/
inductive ConnectError where
  | auth (msg : String)
  | timeout (msg : String)
  | other (msg : String)
deriving DecidableEq, Repr

/-- Outcome of SSHConnection.connect: the session became connected, or the
method returned without connecting (only possible when max_retries = 0, in
which case the Python for loop body never runs and the method falls through
to a plain return with last_exception still None), or a typed error was
raised. -/
inductive ConnectResult where
  | connected
  | notConnected
  | failed (e : ConnectError)
deriving DecidableEq, Repr

/-- Embeds the retry loop of SSHConnection.connect (ssh.py lines 117-142).
The first component counts ConnectHandler calls made, the second
accumulates seconds slept in time.sleep between attempts, the third is the
outcome.  attempt is the Python loop variable; remaining is the number of
loop iterations left, used as structural fuel.  NetmikoAuthenticationException
is re-raised immediately; NetmikoTimeoutException and generic Exception both
sleep retry_delay and continue when attempt < max_retries, else re-raise. -/
def connectAttempts (beh : Nat → ConnectOutcome) (cfg : SSHConfig) :
    Nat → Nat → Nat × Nat × ConnectResult
  | _, 0 => (0, 0, ConnectResult.notConnected)
  | attempt, r + 1 =>
    match beh attempt with
    | ConnectOutcome.ok => (1, 0, ConnectResult.connected)
    | ConnectOutcome.authErr m => (1, 0, ConnectResult.failed (ConnectError.auth m))
    | ConnectOutcome.timeoutErr m =>
      if attempt < cfg.max_retries then
        let rec' := connectAttempts beh cfg (attempt + 1) r
        (rec'.1 + 1, rec'.2.1 + cfg.retry_delay, rec'.2.2)
      else
        (1, 0, ConnectResult.failed (ConnectError.timeout m))
    | ConnectOutcome.otherErr m =>
      if attempt < cfg.max_retries then
        let rec' := connectAttempts beh cfg (attempt + 1) r
        (rec'.1 + 1, rec'.2.1 + cfg.retry_delay, rec'.2.2)
      else
        (1, 0, ConnectResult.failed (ConnectError.other m))

/-- Embeds SSHConnection.connect on a fresh (not yet connected) session:
run the retry loop from attempt 1 with max_retries iterations available. -/
def connect (beh : Nat → ConnectOutcome) (cfg : SSHConfig) :
    Nat × Nat × ConnectResult :=
  connectAttempts beh cfg 1 cfg.max_retries

/-- Embeds SSHConnection.execute_command (ssh.py lines 155-194) on a
connected session: send_command output becomes a SUCCESS result carrying
the output, NetmikoTimeoutException becomes a TIMEOUT result,
any other Exception becomes a FAILED result; failure results carry empty
output and an error message.  The retries field is left at its Python
dataclass default of 0 since the call sites pass no retries argument. -/
def executeCommand (dev : Device) (beh : DeviceBehavior) (c : Command) :
    ExecutionResult :=
  match beh.run c with
  | CommandOutcome.output t =>
    { device := dev, command := c, status := ExecutionStatus.SUCCESS,
      output := t, error := none, retries := 0 }
  | CommandOutcome.timeoutErr m =>
    { device := dev, command := c, status := ExecutionStatus.TIMEOUT,
      output := "", error := some ("Command timeout: " ++ m), retries := 0 }
  | CommandOutcome.otherErr m =>
    { device := dev, command := c, status := ExecutionStatus.FAILED,
      output := "", error := some ("Command execution error: " ++ m), retries := 0 }

/-- Embeds the remaining-command fill loops of execute_commands_on_device
(ssh.py lines 249-274): for each command, a synthesized failure result is
appended only if no result for an equal command is already present (the
membership test r.command == command runs against the growing results
list). -/
def fillMissing (mk : Command → ExecutionResult) :
    List Command → List ExecutionResult → List ExecutionResult
  | [], results => results
  | c :: rest, results =>
    if results.any (fun r => r.command == c) then
      fillMissing mk rest results
    else
      fillMissing mk rest (results ++ [mk c])

/-- Embeds execute_commands_on_device (ssh.py lines 202-276).  Connect is
attempted inside the with statement; execute_command never raises on a
connected session (it converts exceptions to results), so an exception can
escape the with body only from connect itself, with the results list still
empty.  On NetmikoAuthenticationException every command unconditionally
receives a FAILED result with an Authentication failed message; on
NetmikoTimeoutException or generic Exception the fill loop skips commands
already present in results.  When connect returns without connecting
(max_retries = 0), the first execute_command call raises
RuntimeError, caught by the generic except branch. -/
def execute_commands_on_device (dev : Device) (beh : DeviceBehavior)
    (commands : List Command) (cfg : SSHConfig) : List ExecutionResult :=
  match (connect beh.connectAt cfg).2.2 with
  | ConnectResult.connected =>
    commands.map (executeCommand dev beh)
  | ConnectResult.notConnected =>
    fillMissing (fun c =>
      { device := dev, command := c, status := ExecutionStatus.FAILED,
        output := "",
        error := some "Connection error: Not connected to device",
        retries := 0 }) commands []
  | ConnectResult.failed (ConnectError.auth m) =>
    commands.map (fun c =>
      { device := dev, command := c, status := ExecutionStatus.FAILED,
        output := "", error := some ("Authentication failed: " ++ m),
        retries := 0 })
  | ConnectResult.failed (ConnectError.timeout m) =>
    fillMissing (fun c =>
      { device := dev, command := c, status := ExecutionStatus.TIMEOUT,
        output := "", error := some ("Connection timeout: " ++ m),
        retries := 0 }) commands []
  | ConnectResult.failed (ConnectError.other m) =>
    fillMissing (fun c =>
      { device := dev, command := c, status := ExecutionStatus.FAILED,
        output := "", error := some ("Connection error: " ++ m),
        retries := 0 }) commands []

/-- Embeds executor.py ExecutionStats counters.  The start_time and
end_time wall-clock fields are omitted. -/
structure ExecutionStats where
  total_devices : Nat := 0
  completed_devices : Nat := 0
  successful_devices : Nat := 0
  failed_devices : Nat := 0
  total_commands : Nat := 0
  successful_commands : Nat := 0
  failed_commands : Nat := 0
deriving DecidableEq, Repr

/-- Embeds ExecutionStats.start (executor.py line 30): set total_devices
and total_commands = device_count * command_count. -/
def ExecutionStats.start (s : ExecutionStats) (device_count command_count : Nat) :
    ExecutionStats :=
  { s with total_devices := device_count,
           total_commands := device_count * command_count }

/-- Embeds ExecutionStats.record_device_results (executor.py lines 40-54):
bump completed_devices, count the device successful iff every result
is_success, then bump the per-command counters from individual statuses. -/
def ExecutionStats.record_device_results (s : ExecutionStats)
    (results : List ExecutionResult) : ExecutionStats :=
  let s1 := { s with completed_devices := s.completed_devices + 1 }
  let s2 :=
    if results.all (fun r => r.is_success) then
      { s1 with successful_devices := s1.successful_devices + 1 }
    else
      { s1 with failed_devices := s1.failed_devices + 1 }
  results.foldl (fun t r =>
    if r.is_success then
      { t with successful_commands := t.successful_commands + 1 }
    else
      { t with failed_commands := t.failed_commands + 1 }) s2

/-- Embeds the body of the completion loop of execute_on_devices
(executor.py lines 134-144): the completed device results are appended to
the flat collection and recorded in the statistics. -/
def runDevice (env : Device → DeviceBehavior) (commands : List Command)
    (cfg : SSHConfig) (acc : List ExecutionResult × ExecutionStats)
    (dev : Device) : List ExecutionResult × ExecutionStats :=
  let results := execute_commands_on_device dev (env dev) commands cfg
  (acc.1 ++ results, acc.2.record_device_results results)

/-- Embeds execute_on_devices (executor.py lines 86-166), sequentialised in
submission order (one admissible ThreadPoolExecutor completion order; the
properties proved below do not depend on the order).
execute_commands_on_device converts every modelled exception into results,
so the except branch of the future loop (Executor error results) is
unreachable in this model.  The progress callback only observes state and
is not modelled. -/
def execute_on_devices (env : Device → DeviceBehavior) (devices : List Device)
    (commands : List Command) (cfg : SSHConfig) :
    List ExecutionResult × ExecutionStats :=
  let stats0 := ExecutionStats.start {} devices.length commands.length
  devices.foldl (runDevice env commands cfg) ([], stats0)

/-- Fuelled chunking of a list into consecutive slices of size bs, embedding
the Python loop for i in range(0, len(devices), batch_size) with the slice
devices[i : i + batch_size].  The fuel argument bounds the number of slices;
fuel = length of the list suffices whenever bs is at least 1. -/
def chunksAux {α : Type} (bs : Nat) : Nat → List α → List (List α)
  | 0, _ => []
  | _, [] => []
  | fuel + 1, l => l.take bs :: chunksAux bs fuel (l.drop bs)

/-- Consecutive fixed-size slices of a list (requires bs at least 1 to be
faithful; Python range with step 0 raises ValueError). -/
def chunks {α : Type} (bs : Nat) (l : List α) : List (List α) :=
  chunksAux bs l.length l

/-- Embeds the per-chunk body of execute_on_device_batches (executor.py
lines 207-224): run execute_on_devices on the chunk (its own statistics
object is discarded), extend the flat result list, then for each device of
the chunk re-derive its result slice by filtering the chunk results on
device equality and record it into the accumulated statistics. -/
def runBatch (env : Device → DeviceBehavior) (commands : List Command)
    (cfg : SSHConfig) (acc : List ExecutionResult × ExecutionStats)
    (batch_devices : List Device) : List ExecutionResult × ExecutionStats :=
  let batch_results := (execute_on_devices env batch_devices commands cfg).1
  let all_results := acc.1 ++ batch_results
  let stats := batch_devices.foldl (fun t dev =>
    t.record_device_results
      (batch_results.filter (fun r => r.device == dev))) acc.2
  (all_results, stats)

/-- Embeds execute_on_device_batches (executor.py lines 169-227): start the
statistics on the full device list, then process the device list in
fixed-size chunks. -/
def execute_on_device_batches (env : Device → DeviceBehavior)
    (devices : List Device) (commands : List Command) (batch_size : Nat)
    (cfg : SSHConfig) : List ExecutionResult × ExecutionStats :=
  let stats0 := ExecutionStats.start {} devices.length commands.length
  (chunks batch_size devices).foldl (runBatch env commands cfg) ([], stats0)

/-- Modelled from the spec (section 4.2): repeated invocation of the
orchestrator over consecutive fixed-size slices of the device list, with
statistics accumulated across chunks rather than reset: the totals are
initialised from the full batch, and each completed device of each slice is
appended and recorded into the shared statistics exactly as
execute_on_devices appends and records it. -/
def repeatedRunOverSlices (env : Device → DeviceBehavior)
    (devices : List Device) (commands : List Command) (batch_size : Nat)
    (cfg : SSHConfig) : List ExecutionResult × ExecutionStats :=
  let stats0 := ExecutionStats.start {} devices.length commands.length
  (chunks batch_size devices).foldl (fun acc batch_devices =>
    batch_devices.foldl (runDevice env commands cfg) acc)
    ([], stats0)

/-! Concrete devices, commands, behaviors and environments used to witness
the theorems below and to evaluate the engine at explicit inputs. -/

/-- A device with default fields. -/
def dT : Device := { hostname := "r1" }

/-- A second distinct device. -/
def dU : Device := { hostname := "r2" }

/-- A command. -/
def cT : Command := { command := "show version" }

/-- A second distinct command. -/
def cU : Command := { command := "show ip interface brief" }

/-- A third distinct command. -/
def cV : Command := { command := "show running-config" }

/-- The default SSH configuration (timeouts 60, max_retries 3,
retry_delay 5). -/
def cfgD : SSHConfig := {}

/-- Behavior: every connection attempt times out; commands would succeed. -/
def behTimeout : DeviceBehavior :=
  { connectAt := fun _ => ConnectOutcome.timeoutErr "Timeout",
    run := fun _ => CommandOutcome.output "ok" }

/-- Behavior: every connection attempt fails authentication. -/
def behAuth : DeviceBehavior :=
  { connectAt := fun _ => ConnectOutcome.authErr "Auth failed",
    run := fun _ => CommandOutcome.output "ok" }

/-- Behavior: every connection attempt raises a generic error. -/
def behOther : DeviceBehavior :=
  { connectAt := fun _ => ConnectOutcome.otherErr "Connection refused",
    run := fun _ => CommandOutcome.output "ok" }

/-- Behavior: connection succeeds at once and every command succeeds. -/
def behOk : DeviceBehavior :=
  { connectAt := fun _ => ConnectOutcome.ok,
    run := fun _ => CommandOutcome.output "out" }

/-- Behavior: the first two connection attempts time out, the third
succeeds; every command then succeeds. -/
def behFlaky : DeviceBehavior :=
  { connectAt := fun k => if k ≤ 2 then ConnectOutcome.timeoutErr "Timeout"
                          else ConnectOutcome.ok,
    run := fun _ => CommandOutcome.output "out" }

/-- Behavior: connected session where the second command times out and the
others succeed. -/
def behMid : DeviceBehavior :=
  { connectAt := fun _ => ConnectOutcome.ok,
    run := fun c => if c == cU then CommandOutcome.timeoutErr "read timeout"
                    else CommandOutcome.output "out" }

/-- Environment where every device times out on connect. -/
def envT : Device → DeviceBehavior := fun _ => behTimeout

/-- Environment where every device connects and succeeds. -/
def envOk : Device → DeviceBehavior := fun _ => behOk

/-- Five distinct devices for the statistics scenario. -/
def d1 : Device := { hostname := "sw1" }

/-- Second device of the statistics scenario. -/
def d2 : Device := { hostname := "sw2" }

/-- Third device of the statistics scenario (the one that fails). -/
def d3 : Device := { hostname := "sw3" }

/-- Fourth device of the statistics scenario. -/
def d4 : Device := { hostname := "sw4" }

/-- Fifth device of the statistics scenario. -/
def d5 : Device := { hostname := "sw5" }

/-- Environment for the statistics scenario: device sw3 fails
authentication entirely, all others succeed. -/
def env5 : Device → DeviceBehavior := fun d =>
  if d.hostname == "sw3" then behAuth else behOk

/-- A result whose status is AUTH_FAILED, for exercising the status
predicates. -/
def rAuth : ExecutionResult :=
  { device := dT, command := cT, status := ExecutionStatus.AUTH_FAILED }

/-! Helper lemmas about the connect retry loop. -/

/-- A successful first attempt connects with one ConnectHandler call and no
sleeping. -/
theorem connect_ok_first (beh : Nat → ConnectOutcome) (cfg : SSHConfig)
    (h1 : 1 ≤ cfg.max_retries) (hb : beh 1 = ConnectOutcome.ok) :
    connect beh cfg = (1, 0, ConnectResult.connected) := by
  unfold connect
  obtain ⟨r, hr⟩ : ∃ r, cfg.max_retries = r + 1 := ⟨cfg.max_retries - 1, by omega⟩
  rw [hr]
  unfold connectAttempts
  rw [hb]

/-- An authentication failure on the first attempt is raised at once: one
ConnectHandler call, no sleeping, regardless of max_retries. -/
theorem connect_auth_first (beh : Nat → ConnectOutcome) (cfg : SSHConfig)
    (m : String) (h1 : 1 ≤ cfg.max_retries)
    (hb : beh 1 = ConnectOutcome.authErr m) :
    connect beh cfg = (1, 0, ConnectResult.failed (ConnectError.auth m)) := by
  unfold connect
  obtain ⟨r, hr⟩ : ∃ r, cfg.max_retries = r + 1 := ⟨cfg.max_retries - 1, by omega⟩
  rw [hr]
  unfold connectAttempts
  rw [hb]

/-- With every attempt timing out, the retry loop started at attempt a with
r iterations left makes exactly r calls and sleeps between consecutive
calls, then reports the timeout. -/
theorem connectAttempts_const_timeout (beh : Nat → ConnectOutcome)
    (cfg : SSHConfig) (m : String)
    (hb : ∀ k, beh k = ConnectOutcome.timeoutErr m) :
    ∀ (r a : Nat), 1 ≤ r → a + r = cfg.max_retries + 1 →
      connectAttempts beh cfg a r =
        (r, (r - 1) * cfg.retry_delay,
          ConnectResult.failed (ConnectError.timeout m)) := by
  intro r
  induction r with
  | zero => intro a h1 _; omega
  | succ n ih =>
    intro a _ hsum
    unfold connectAttempts
    rw [hb a]
    by_cases hlt : a < cfg.max_retries
    · have hn : 1 ≤ n := by omega
      simp only [if_pos hlt, ih (a + 1) hn (by omega)]
      have hmul : (n - 1) * cfg.retry_delay + cfg.retry_delay
          = n * cfg.retry_delay := by
        have hsub : n - 1 + 1 = n := by omega
        calc (n - 1) * cfg.retry_delay + cfg.retry_delay
            = (n - 1 + 1) * cfg.retry_delay := by rw [Nat.succ_mul]
          _ = n * cfg.retry_delay := by rw [hsub]
      simp [hmul]
    · have hn : n = 0 := by omega
      subst hn
      simp [if_neg hlt]

/-- With every attempt timing out, connect makes exactly max_retries calls
and sleeps retry_delay between consecutive calls. -/
theorem connect_const_timeout (beh : Nat → ConnectOutcome) (cfg : SSHConfig)
    (m : String) (h1 : 1 ≤ cfg.max_retries)
    (hb : ∀ k, beh k = ConnectOutcome.timeoutErr m) :
    connect beh cfg =
      (cfg.max_retries, (cfg.max_retries - 1) * cfg.retry_delay,
        ConnectResult.failed (ConnectError.timeout m)) := by
  unfold connect
  exact connectAttempts_const_timeout beh cfg m hb cfg.max_retries 1 h1 (by omega)

/-- With every attempt raising a generic error, the retry loop started at
attempt a with r iterations left makes exactly r calls and sleeps between
consecutive calls, then reports the error: the code path is identical to
the timeout path. -/
theorem connectAttempts_const_other (beh : Nat → ConnectOutcome)
    (cfg : SSHConfig) (m : String)
    (hb : ∀ k, beh k = ConnectOutcome.otherErr m) :
    ∀ (r a : Nat), 1 ≤ r → a + r = cfg.max_retries + 1 →
      connectAttempts beh cfg a r =
        (r, (r - 1) * cfg.retry_delay,
          ConnectResult.failed (ConnectError.other m)) := by
  intro r
  induction r with
  | zero => intro a h1 _; omega
  | succ n ih =>
    intro a _ hsum
    unfold connectAttempts
    rw [hb a]
    by_cases hlt : a < cfg.max_retries
    · have hn : 1 ≤ n := by omega
      simp only [if_pos hlt, ih (a + 1) hn (by omega)]
      have hmul : (n - 1) * cfg.retry_delay + cfg.retry_delay
          = n * cfg.retry_delay := by
        have hsub : n - 1 + 1 = n := by omega
        calc (n - 1) * cfg.retry_delay + cfg.retry_delay
            = (n - 1 + 1) * cfg.retry_delay := by rw [Nat.succ_mul]
          _ = n * cfg.retry_delay := by rw [hsub]
      simp [hmul]
    · have hn : n = 0 := by omega
      subst hn
      simp [if_neg hlt]

/-- With every attempt raising a generic error, connect makes exactly
max_retries calls before raising. -/
theorem connect_const_other (beh : Nat → ConnectOutcome) (cfg : SSHConfig)
    (m : String) (h1 : 1 ≤ cfg.max_retries)
    (hb : ∀ k, beh k = ConnectOutcome.otherErr m) :
    connect beh cfg =
      (cfg.max_retries, (cfg.max_retries - 1) * cfg.retry_delay,
        ConnectResult.failed (ConnectError.other m)) := by
  unfold connect
  exact connectAttempts_const_other beh cfg m hb cfg.max_retries 1 h1 (by omega)

/-! Helper lemmas about the remaining-command fill loop. -/

/-- Every element of the filled list was already present or was synthesized
from some command of the list. -/
theorem fillMissing_mem (mk : Command → ExecutionResult) :
    ∀ (cs : List Command) (acc : List ExecutionResult) (r : ExecutionResult),
      r ∈ fillMissing mk cs acc → r ∈ acc ∨ ∃ c ∈ cs, r = mk c := by
  intro cs
  induction cs with
  | nil =>
    intro acc r h
    exact Or.inl h
  | cons c rest ih =>
    intro acc r h
    unfold fillMissing at h
    by_cases hc : acc.any (fun x => x.command == c) = true
    · rw [if_pos hc] at h
      rcases ih acc r h with h1 | ⟨c', hc', he⟩
      · exact Or.inl h1
      · exact Or.inr ⟨c', List.mem_cons_of_mem c hc', he⟩
    · rw [if_neg hc] at h
      rcases ih (acc ++ [mk c]) r h with h1 | ⟨c', hc', he⟩
      · rcases List.mem_append.mp h1 with h2 | h2
        · exact Or.inl h2
        · have : r = mk c := by simpa using h2
          exact Or.inr ⟨c, List.mem_cons_self c rest, this⟩
      · exact Or.inr ⟨c', List.mem_cons_of_mem c hc', he⟩

/-- When the commands are pairwise distinct and none of them already occurs
in the accumulated results, the fill loop appends exactly one result per
command. -/
theorem fillMissing_length (mk : Command → ExecutionResult)
    (hmk : ∀ c, (mk c).command = c) :
    ∀ (cs : List Command) (acc : List ExecutionResult),
      cs.Nodup → (∀ c ∈ cs, ∀ r ∈ acc, r.command ≠ c) →
      (fillMissing mk cs acc).length = acc.length + cs.length := by
  intro cs
  induction cs with
  | nil =>
    intro acc _ _
    simp [fillMissing]
  | cons c rest ih =>
    intro acc hnd hdis
    have hcnotin : c ∉ rest := (List.nodup_cons.mp hnd).1
    have hrest : rest.Nodup := (List.nodup_cons.mp hnd).2
    unfold fillMissing
    have hany : acc.any (fun r => r.command == c) = false := by
      rw [List.any_eq_false]
      intro r hr
      simpa using hdis c (List.mem_cons_self c rest) r hr
    rw [hany]
    simp only [Bool.false_eq_true, if_false]
    rw [ih (acc ++ [mk c]) hrest ?_]
    · simp only [List.length_append, List.length_cons, List.length_nil]
      omega
    · intro c' hc' r hr
      rcases List.mem_append.mp hr with h2 | h2
      · exact hdis c' (List.mem_cons_of_mem c hc') r h2
      · have hrc : r = mk c := by simpa using h2
        rw [hrc, hmk c]
        intro hcc
        exact hcnotin (hcc ▸ hc')

/-! Helper lemmas about per-device execution. -/

/-- With pairwise distinct commands, execute_commands_on_device returns one
result per command on every code path. -/
theorem execute_commands_length (dev : Device) (beh : DeviceBehavior)
    (commands : List Command) (cfg : SSHConfig) (hnd : commands.Nodup) :
    (execute_commands_on_device dev beh commands cfg).length
      = commands.length := by
  unfold execute_commands_on_device
  cases (connect beh.connectAt cfg).2.2 with
  | connected => simp
  | notConnected =>
    rw [fillMissing_length _ (fun c => rfl) commands [] hnd (by simp)]
    simp
  | failed e =>
    cases e with
    | auth m => simp
    | timeout m =>
      rw [fillMissing_length _ (fun c => rfl) commands [] hnd (by simp)]
      simp
    | other m =>
      rw [fillMissing_length _ (fun c => rfl) commands [] hnd (by simp)]
      simp

/-- Every result produced by execute_commands_on_device references the
device it was produced for, was produced for one of the requested commands,
carries retries = 0, has empty output unless its status is SUCCESS, and has
no error message when its status is SUCCESS. -/
theorem execute_commands_shape (dev : Device) (beh : DeviceBehavior)
    (commands : List Command) (cfg : SSHConfig) :
    ∀ r ∈ execute_commands_on_device dev beh commands cfg,
      r.device = dev ∧ r.command ∈ commands ∧ r.retries = 0 ∧
      (r.status ≠ ExecutionStatus.SUCCESS → r.output = "") ∧
      (r.status = ExecutionStatus.SUCCESS → r.error = none) := by
  intro r hr
  unfold execute_commands_on_device at hr
  split at hr
  case _ =>
    simp only [List.mem_map] at hr
    obtain ⟨c, hc, he⟩ := hr
    subst he
    unfold executeCommand
    cases beh.run c <;> simp [hc]
  case _ =>
    rcases fillMissing_mem _ commands [] r hr with h1 | ⟨c, hc, he⟩
    · simp at h1
    · subst he
      simp [hc]
  case _ m =>
    simp only [List.mem_map] at hr
    obtain ⟨c, hc, he⟩ := hr
    subst he
    simp [hc]
  case _ m =>
    rcases fillMissing_mem _ commands [] r hr with h1 | ⟨c, hc, he⟩
    · simp at h1
    · subst he
      simp [hc]
  case _ m =>
    rcases fillMissing_mem _ commands [] r hr with h1 | ⟨c, hc, he⟩
    · simp at h1
    · subst he
      simp [hc]

/-! Helper lemmas about the orchestrator fold. -/

/-- The flat result list accumulated by the completion loop is the initial
accumulator followed by the concatenation of the per-device result lists. -/
theorem foldl_runDevice_fst (env : Device → DeviceBehavior)
    (commands : List Command) (cfg : SSHConfig) :
    ∀ (devices : List Device) (acc : List ExecutionResult)
      (s : ExecutionStats),
      (devices.foldl (runDevice env commands cfg) (acc, s)).1 =
        acc ++ (devices.map (fun dev =>
          execute_commands_on_device dev (env dev) commands cfg)).flatten := by
  intro devices
  induction devices with
  | nil => intro acc s; simp
  | cons d rest ih =>
    intro acc s
    simp only [List.foldl_cons, List.map_cons, List.flatten_cons]
    rw [ih]
    simp [runDevice, List.append_assoc]

/-- The statistics accumulated by the completion loop are obtained by
recording each per-device result list in submission order. -/
theorem foldl_runDevice_snd (env : Device → DeviceBehavior)
    (commands : List Command) (cfg : SSHConfig) :
    ∀ (devices : List Device) (acc : List ExecutionResult)
      (s : ExecutionStats),
      (devices.foldl (runDevice env commands cfg) (acc, s)).2 =
        devices.foldl (fun t dev =>
          t.record_device_results
            (execute_commands_on_device dev (env dev) commands cfg)) s := by
  intro devices
  induction devices with
  | nil => intro acc s; simp
  | cons d rest ih =>
    intro acc s
    simp only [List.foldl_cons]
    rw [ih]
    rfl

/-- Every result returned by the orchestrator comes from the per-device
execution of one of the submitted devices. -/
theorem mem_execute_on_devices (env : Device → DeviceBehavior)
    (devices : List Device) (commands : List Command) (cfg : SSHConfig) :
    ∀ r ∈ (execute_on_devices env devices commands cfg).1,
      ∃ dev ∈ devices,
        r ∈ execute_commands_on_device dev (env dev) commands cfg := by
  intro r hr
  unfold execute_on_devices at hr
  rw [foldl_runDevice_fst] at hr
  simp only [List.nil_append, List.mem_flatten, List.mem_map] at hr
  obtain ⟨l, ⟨dev, hdev, hl⟩, hrl⟩ := hr
  exact ⟨dev, hdev, hl ▸ hrl⟩

/-- The concatenated per-device result lists have one entry per
device-command pair when the commands are pairwise distinct. -/
theorem flatten_results_length (env : Device → DeviceBehavior)
    (commands : List Command) (cfg : SSHConfig) (hnd : commands.Nodup) :
    ∀ devices : List Device,
      ((devices.map (fun dev =>
        execute_commands_on_device dev (env dev) commands cfg)).flatten).length
        = devices.length * commands.length := by
  intro devices
  induction devices with
  | nil => simp
  | cons d rest ih =>
    simp only [List.map_cons, List.flatten_cons, List.length_append,
      List.length_cons, ih, execute_commands_length d (env d) commands cfg hnd]
    ring

/-! Helper lemmas about the statistics aggregate. -/

/-- The per-command counter fold of record_device_results adds the number
of successful results to successful_commands and the number of
unsuccessful results to failed_commands, and touches no other field. -/
theorem foldl_command_counters (rs : List ExecutionResult) :
    ∀ t : ExecutionStats,
      rs.foldl (fun t r =>
        if r.is_success then
          { t with successful_commands := t.successful_commands + 1 }
        else
          { t with failed_commands := t.failed_commands + 1 }) t =
      { t with
          successful_commands :=
            t.successful_commands + rs.countP (fun r => r.is_success),
          failed_commands :=
            t.failed_commands + rs.countP (fun r => !r.is_success) } := by
  induction rs with
  | nil => intro t; simp
  | cons r rest ih =>
    intro t
    simp only [List.foldl_cons, List.countP_cons]
    by_cases h : r.is_success
    · rw [if_pos h, ih]
      simp [h]
      omega
    · rw [if_neg h, ih]
      simp [h]
      omega

/-- Field-level characterization of record_device_results: the completed
count rises by one, the device is counted successful exactly when all of
its results are successful and failed otherwise, and the command counters
rise by the number of successful and unsuccessful results respectively. -/
theorem record_device_results_fields (s : ExecutionStats)
    (rs : List ExecutionResult) :
    (s.record_device_results rs).completed_devices = s.completed_devices + 1 ∧
    (s.record_device_results rs).successful_devices
      = s.successful_devices
        + (if rs.all (fun r => r.is_success) then 1 else 0) ∧
    (s.record_device_results rs).failed_devices
      = s.failed_devices
        + (if rs.all (fun r => r.is_success) then 0 else 1) ∧
    (s.record_device_results rs).successful_commands
      = s.successful_commands + rs.countP (fun r => r.is_success) ∧
    (s.record_device_results rs).failed_commands
      = s.failed_commands + rs.countP (fun r => !r.is_success) ∧
    (s.record_device_results rs).total_devices = s.total_devices ∧
    (s.record_device_results rs).total_commands = s.total_commands := by
  unfold ExecutionStats.record_device_results
  by_cases h : rs.all (fun r => r.is_success)
  · rw [if_pos h, foldl_command_counters]
    simp [h]
  · rw [if_neg h, foldl_command_counters]
    simp [h]

/-! Helper lemmas about chunked processing. -/

/-- Folding a per-element step over the chunks of a list, chunk by chunk,
is folding it over the list itself. -/
theorem chunksAux_foldl {α β : Type} (bs : Nat) (hbs : 1 ≤ bs)
    (f : β → α → β) :
    ∀ (fuel : Nat) (l : List α) (a : β), l.length ≤ fuel →
      (chunksAux bs fuel l).foldl (fun acc batch => batch.foldl f acc) a
        = l.foldl f a := by
  intro fuel
  induction fuel with
  | zero =>
    intro l a h
    have hl : l = [] := List.length_eq_zero.mp (Nat.le_zero.mp h)
    subst hl
    rfl
  | succ n ih =>
    intro l a h
    cases l with
    | nil => rfl
    | cons x xs =>
      show (((x :: xs).take bs :: chunksAux bs n ((x :: xs).drop bs)).foldl
        (fun acc batch => batch.foldl f acc) a) = (x :: xs).foldl f a
      simp only [List.length_cons] at h
      have hlen : ((x :: xs).drop bs).length ≤ n := by
        rw [List.length_drop]
        simp only [List.length_cons]
        omega
      simp only [List.foldl_cons]
      rw [ih ((x :: xs).drop bs) (((x :: xs).take bs).foldl f a) hlen]
      rw [← List.foldl_append, List.take_append_drop]
      rfl

/-- Spec side of the batched mode: repeated invocation over slices is the
plain sequential run over the whole device list. -/
theorem repeatedRunOverSlices_eq_run (env : Device → DeviceBehavior)
    (devices : List Device) (commands : List Command) (batch_size : Nat)
    (cfg : SSHConfig) (hbs : 1 ≤ batch_size) :
    repeatedRunOverSlices env devices commands batch_size cfg
      = execute_on_devices env devices commands cfg := by
  unfold repeatedRunOverSlices execute_on_devices chunks
  exact chunksAux_foldl batch_size hbs (runDevice env commands cfg)
    devices.length devices _ (le_refl _)

/-- Every chunk of a list with pairwise distinct elements has pairwise
distinct elements. -/
theorem chunksAux_nodup {α : Type} (bs : Nat) :
    ∀ (fuel : Nat) (l : List α), l.Nodup →
      ∀ c ∈ chunksAux bs fuel l, c.Nodup := by
  intro fuel
  induction fuel with
  | zero =>
    intro l _ c hc
    simp [chunksAux] at hc
  | succ n ih =>
    intro l hnd c hc
    cases l with
    | nil => simp [chunksAux] at hc
    | cons x xs =>
      rcases List.mem_cons.mp hc with rfl | h
      · exact (List.take_sublist bs (x :: xs)).nodup hnd
      · exact ih ((x :: xs).drop bs)
          ((List.drop_sublist bs (x :: xs)).nodup hnd) c h

/-- Every result of the concatenated per-device lists of a batch references
a device of the batch. -/
theorem mem_flatten_device (env : Device → DeviceBehavior)
    (commands : List Command) (cfg : SSHConfig) :
    ∀ (batch : List Device) (r : ExecutionResult),
      r ∈ (batch.map (fun dev =>
        execute_commands_on_device dev (env dev) commands cfg)).flatten →
      r.device ∈ batch := by
  intro batch r hr
  simp only [List.mem_flatten, List.mem_map] at hr
  obtain ⟨l, ⟨dev, hdev, hl⟩, hrl⟩ := hr
  subst hl
  rw [(execute_commands_shape dev (env dev) commands cfg r hrl).1]
  exact hdev

/-- With pairwise distinct devices, filtering the concatenated batch
results on device equality recovers exactly that device's own result
list. -/
theorem filter_flatten_eq (env : Device → DeviceBehavior)
    (commands : List Command) (cfg : SSHConfig) :
    ∀ (batch : List Device), batch.Nodup →
      ∀ dev ∈ batch,
        ((batch.map (fun d =>
          execute_commands_on_device d (env d) commands cfg)).flatten).filter
            (fun r => r.device == dev)
          = execute_commands_on_device dev (env dev) commands cfg := by
  intro batch
  induction batch with
  | nil =>
    intro _ dev hdev
    simp at hdev
  | cons d rest ih =>
    intro hnd dev hdev
    have hdnotin : d ∉ rest := (List.nodup_cons.mp hnd).1
    simp only [List.map_cons, List.flatten_cons, List.filter_append]
    rcases List.mem_cons.mp hdev with rfl | hmem
    · have h1 : (execute_commands_on_device dev (env dev) commands cfg).filter
          (fun r => r.device == dev)
          = execute_commands_on_device dev (env dev) commands cfg := by
        apply List.filter_eq_self.mpr
        intro r hr
        simp [(execute_commands_shape dev (env dev) commands cfg r hr).1]
      have h2 : ((rest.map (fun d =>
          execute_commands_on_device d (env d) commands cfg)).flatten).filter
            (fun r => r.device == dev) = [] := by
        apply List.filter_eq_nil_iff.mpr
        intro r hr
        have hmemdev : r.device ∈ rest :=
          mem_flatten_device env commands cfg rest r hr
        simp only [beq_iff_eq]
        intro he
        exact hdnotin (he ▸ hmemdev)
      rw [h1, h2, List.append_nil]
    · have h1 : (execute_commands_on_device d (env d) commands cfg).filter
          (fun r => r.device == dev) = [] := by
        apply List.filter_eq_nil_iff.mpr
        intro r hr
        rw [(execute_commands_shape d (env d) commands cfg r hr).1]
        simp only [beq_iff_eq]
        intro he
        exact hdnotin (he ▸ hmem)
      rw [h1, List.nil_append, ih (List.nodup_cons.mp hnd).2 dev hmem]

/-- With pairwise distinct batch devices, the chunk body of the batched
mode coincides with running the completion loop body device by device. -/
theorem runBatch_eq_foldl (env : Device → DeviceBehavior)
    (commands : List Command) (cfg : SSHConfig) (batch : List Device)
    (hnd : batch.Nodup) (acc : List ExecutionResult × ExecutionStats) :
    runBatch env commands cfg acc batch
      = batch.foldl (runDevice env commands cfg) acc := by
  obtain ⟨a1, a2⟩ := acc
  have hbr : (execute_on_devices env batch commands cfg).1
      = (batch.map (fun dev =>
          execute_commands_on_device dev (env dev) commands cfg)).flatten := by
    unfold execute_on_devices
    rw [foldl_runDevice_fst]
    simp
  unfold runBatch
  apply Prod.ext
  · simp only []
    rw [hbr, foldl_runDevice_fst]
  · simp only []
    rw [foldl_runDevice_snd]
    apply List.foldl_ext
    intro t dev hdev
    rw [hbr, filter_flatten_eq env commands cfg batch hnd dev hdev]

/-- With pairwise distinct devices, batched mode computes exactly the
repeated run over consecutive slices. -/
theorem batched_eq_repeated (env : Device → DeviceBehavior)
    (devices : List Device) (commands : List Command) (batch_size : Nat)
    (cfg : SSHConfig) (hnd : devices.Nodup) :
    execute_on_device_batches env devices commands batch_size cfg
      = repeatedRunOverSlices env devices commands batch_size cfg := by
  unfold execute_on_device_batches repeatedRunOverSlices
  apply List.foldl_ext
  intro a batch hbatch
  exact runBatch_eq_foldl env commands cfg batch
    (chunksAux_nodup batch_size devices.length devices hnd batch hbatch) a

/-! Claim theorems. -/

/-- Claim C1, amended: for every batch of D devices and C pairwise distinct
commands, the result list returned by execute_on_devices has exactly D*C
entries, one per device-command pair, regardless of how many devices fail
to connect or fail mid-sequence; a device whose session cannot be
established contributes exactly C synthetic failure results.  (As stated,
the claim fails when the command list contains duplicate commands: the
remaining-command fill loop of execute_commands_on_device skips a command
for which an equal command already has a result, so a device whose connect
attempt ends in a transport timeout or generic error contributes one result
per distinct command only.) -/
theorem claim_C1_result_count (env : Device → DeviceBehavior)
    (devices : List Device) (commands : List Command) (cfg : SSHConfig)
    (hnd : commands.Nodup) :
    (execute_on_devices env devices commands cfg).1.length
      = devices.length * commands.length := by
  unfold execute_on_devices
  rw [foldl_runDevice_fst]
  simp only [List.nil_append]
  exact flatten_results_length env commands cfg hnd devices

/-- Claim C1 counterexample: one device whose connection times out, with
the same command listed twice, yields a single result instead of
D*C = 1*2 = 2 results. -/
theorem claim_C1_counterexample :
    (execute_on_devices envT [dT] [cT, cT] cfgD).1.length
      ≠ [dT].length * [cT, cT].length := by
  decide

/-- Witness for claim C1: two devices that both time out on connect and two
distinct commands give 2*2 results. -/
theorem claim_C1_witness :
    ([cT, cU] : List Command).Nodup ∧
    (execute_on_devices envT [dT, dU] [cT, cU] cfgD).1.length
      = [dT, dU].length * [cT, cU].length :=
  ⟨by decide,
   claim_C1_result_count envT [dT, dU] [cT, cU] cfgD (by decide)⟩

/-- Claim C2: with max_retries = n (n at least 1), an authentication
failure on the first attempt causes exactly one ConnectHandler call, no
sleeping, and the error is raised immediately, while persistent
transport/timeout failures are retried up to n attempts with retry_delay
slept between consecutive attempts. -/
theorem claim_C2_retry_policy (beh : Nat → ConnectOutcome) (cfg : SSHConfig)
    (n : Nat) (hn : cfg.max_retries = n) (h1 : 1 ≤ n) :
    (∀ m, beh 1 = ConnectOutcome.authErr m →
      connect beh cfg = (1, 0, ConnectResult.failed (ConnectError.auth m))) ∧
    (∀ m, (∀ k, beh k = ConnectOutcome.timeoutErr m) →
      connect beh cfg
        = (n, (n - 1) * cfg.retry_delay,
            ConnectResult.failed (ConnectError.timeout m))) := by
  subst hn
  constructor
  · intro m hm
    exact connect_auth_first beh cfg m h1 hm
  · intro m hm
    exact connect_const_timeout beh cfg m h1 hm

/-- Witness for claim C2: with the default configuration (max_retries 3,
retry_delay 5), an always-auth-failing transport makes 1 attempt, and an
always-timing-out transport makes 3 attempts with 10 seconds slept. -/
theorem claim_C2_witness :
    connect behAuth.connectAt cfgD
      = (1, 0, ConnectResult.failed (ConnectError.auth "Auth failed")) ∧
    connect behTimeout.connectAt cfgD
      = (3, 10, ConnectResult.failed (ConnectError.timeout "Timeout")) :=
  ⟨(claim_C2_retry_policy behAuth.connectAt cfgD 3 rfl (by decide)).1
      "Auth failed" rfl,
   ((claim_C2_retry_policy behTimeout.connectAt cfgD 3 rfl (by decide)).2
      "Timeout" (fun _ => rfl)).trans (by decide)⟩

/-- Claim C3, amended: a failure during connect that is neither a
transport/timeout failure nor an authentication failure is retried exactly
like a transport/timeout failure: up to max_retries attempts with
retry_delay slept between consecutive attempts, after which the error is
raised.  (As stated, the claim fails: the code does not treat such
failures as non-retryable; the generic except branch of the retry loop
sleeps and continues exactly as the timeout branch does.) -/
theorem claim_C3_other_retried (beh : Nat → ConnectOutcome)
    (cfg : SSHConfig) (m : String) (h1 : 1 ≤ cfg.max_retries)
    (hm : ∀ k, beh k = ConnectOutcome.otherErr m) :
    connect beh cfg
      = (cfg.max_retries, (cfg.max_retries - 1) * cfg.retry_delay,
          ConnectResult.failed (ConnectError.other m)) :=
  connect_const_other beh cfg m h1 hm

/-- Claim C3 counterexample: an always-failing generic error with the
default max_retries 3 causes 3 ConnectHandler calls, not exactly 1. -/
theorem claim_C3_counterexample :
    (connect behOther.connectAt cfgD).1 = 3 ∧
    (connect behOther.connectAt cfgD).1 ≠ 1 := by
  decide

/-- Witness for claim C3: the always-generic-error transport under the
default configuration makes 3 attempts and sleeps 10 seconds in total. -/
theorem claim_C3_witness :
    connect behOther.connectAt cfgD
      = (3, 10, ConnectResult.failed (ConnectError.other "Connection refused")) :=
  (claim_C3_other_retried behOther.connectAt cfgD "Connection refused"
    (by decide) (fun _ => rfl)).trans (by decide)

/-- Claim C4, amended: for a device whose connect ends in an
authentication failure, execute_commands_on_device returns one result per
command, each with status FAILED (not AUTH_FAILED: the AUTH_FAILED
enumeration member exists in models.py but is never assigned by the
engine), empty output and an error message beginning Authentication
failed, and the statistics count that device as failed. -/
theorem claim_C4_auth_results (dev : Device) (beh : DeviceBehavior)
    (commands : List Command) (cfg : SSHConfig) (m : String)
    (h1 : 1 ≤ cfg.max_retries)
    (hm : beh.connectAt 1 = ConnectOutcome.authErr m) :
    execute_commands_on_device dev beh commands cfg
      = commands.map (fun c =>
          { device := dev, command := c, status := ExecutionStatus.FAILED,
            output := "", error := some ("Authentication failed: " ++ m),
            retries := 0 }) ∧
    (commands ≠ [] → ∀ s : ExecutionStats,
      (s.record_device_results
        (execute_commands_on_device dev beh commands cfg)).failed_devices
        = s.failed_devices + 1) := by
  have hc := connect_auth_first beh.connectAt cfg m h1 hm
  have hres : execute_commands_on_device dev beh commands cfg
      = commands.map (fun c =>
          { device := dev, command := c, status := ExecutionStatus.FAILED,
            output := "", error := some ("Authentication failed: " ++ m),
            retries := 0 }) := by
    unfold execute_commands_on_device
    rw [hc]
  refine ⟨hres, fun hne s => ?_⟩
  rw [hres]
  have hall : ((commands.map (fun c =>
      ({ device := dev, command := c, status := ExecutionStatus.FAILED,
         output := "", error := some ("Authentication failed: " ++ m),
         retries := 0 } : ExecutionResult))).all
        (fun r => r.is_success)) = false := by
    cases commands with
    | nil => exact absurd rfl hne
    | cons c cs => simp [ExecutionResult.is_success]
  rw [(record_device_results_fields s _).2.2.1, hall]
  simp

/-- Claim C4 counterexample: the synthetic results of an authentication
failure carry status FAILED, which is a different status from
AUTH_FAILED. -/
theorem claim_C4_counterexample :
    (execute_commands_on_device dT behAuth [cT] cfgD).map (fun r => r.status)
      = [ExecutionStatus.FAILED] ∧
    ExecutionStatus.FAILED ≠ ExecutionStatus.AUTH_FAILED := by
  decide

/-- Witness for claim C4: a single command against an auth-failing device
yields one FAILED result with empty output, and the device counts as
failed. -/
theorem claim_C4_witness :
    execute_commands_on_device dT behAuth [cT] cfgD
      = [{ device := dT, command := cT, status := ExecutionStatus.FAILED,
           output := "", error := some "Authentication failed: Auth failed",
           retries := 0 }] ∧
    (({} : ExecutionStats).record_device_results
        (execute_commands_on_device dT behAuth [cT] cfgD)).failed_devices
      = ({} : ExecutionStats).failed_devices + 1 :=
  ⟨((claim_C4_auth_results dT behAuth [cT] cfgD "Auth failed" (by decide)
      rfl).1).trans (by decide),
   (claim_C4_auth_results dT behAuth [cT] cfgD "Auth failed" (by decide)
      rfl).2 (by decide) {}⟩

/-- Claim C5, amended: every ExecutionResult returned by the engine
carries retries = 0, whatever the number of connection attempts that
preceded it: neither SSHConnection.connect nor any ExecutionResult
construction site propagates the attempt count into the retries field.
(As stated, the claim fails: after two transport failures and a successful
third attempt the results carry retries = 0, not 2.) -/
theorem claim_C5_retries_zero (env : Device → DeviceBehavior)
    (devices : List Device) (commands : List Command) (cfg : SSHConfig) :
    ∀ r ∈ (execute_on_devices env devices commands cfg).1, r.retries = 0 := by
  intro r hr
  obtain ⟨dev, _, hmem⟩ :=
    mem_execute_on_devices env devices commands cfg r hr
  exact (execute_commands_shape dev (env dev) commands cfg r hmem).2.2.1

/-- Claim C5 counterexample: with max_retries = 3 and a transport that
fails twice then succeeds, the command result carries retries = 0, not
2. -/
theorem claim_C5_counterexample :
    (execute_commands_on_device dT behFlaky [cT] cfgD).map (fun r => r.retries)
      = [0] ∧ (0 : Nat) ≠ 2 := by
  decide

/-- Witness for claim C5: the successful result of the
fails-twice-then-succeeds scenario is in the engine output and carries
retries = 0. -/
theorem claim_C5_witness :
    ({ device := dT, command := cT, status := ExecutionStatus.SUCCESS,
       output := "out", error := none, retries := 0 } : ExecutionResult)
      ∈ (execute_on_devices (fun _ => behFlaky) [dT] [cT] cfgD).1 ∧
    ({ device := dT, command := cT, status := ExecutionStatus.SUCCESS,
       output := "out", error := none, retries := 0 } : ExecutionResult).retries
      = 0 :=
  ⟨by decide,
   claim_C5_retries_zero (fun _ => behFlaky) [dT] [cT] cfgD _ (by decide)⟩

/-- Claim C6: on a connected session a single command failure does not
abort the sequence: for three commands where the second times out,
execute_commands_on_device returns three results in command order, the
first and third successful and only the second carrying the TIMEOUT
(command timeout) classification. -/
theorem claim_C6_mid_command_timeout (dev : Device) (beh : DeviceBehavior)
    (c1 c2 c3 : Command) (cfg : SSHConfig) (t1 t3 m : String)
    (h1 : 1 ≤ cfg.max_retries)
    (hconn : beh.connectAt 1 = ConnectOutcome.ok)
    (hr1 : beh.run c1 = CommandOutcome.output t1)
    (hr2 : beh.run c2 = CommandOutcome.timeoutErr m)
    (hr3 : beh.run c3 = CommandOutcome.output t3) :
    execute_commands_on_device dev beh [c1, c2, c3] cfg
      = [{ device := dev, command := c1, status := ExecutionStatus.SUCCESS,
           output := t1, error := none, retries := 0 },
         { device := dev, command := c2, status := ExecutionStatus.TIMEOUT,
           output := "", error := some ("Command timeout: " ++ m),
           retries := 0 },
         { device := dev, command := c3, status := ExecutionStatus.SUCCESS,
           output := t3, error := none, retries := 0 }] := by
  have hc := connect_ok_first beh.connectAt cfg h1 hconn
  unfold execute_commands_on_device
  rw [hc]
  simp [executeCommand, hr1, hr2, hr3]

/-- Witness for claim C6: a concrete connected device whose second command
times out yields exactly the three expected results. -/
theorem claim_C6_witness :
    execute_commands_on_device dT behMid [cT, cU, cV] cfgD
      = [{ device := dT, command := cT, status := ExecutionStatus.SUCCESS,
           output := "out", error := none, retries := 0 },
         { device := dT, command := cU, status := ExecutionStatus.TIMEOUT,
           output := "", error := some "Command timeout: read timeout",
           retries := 0 },
         { device := dT, command := cV, status := ExecutionStatus.SUCCESS,
           output := "out", error := none, retries := 0 }] :=
  claim_C6_mid_command_timeout dT behMid cT cU cV cfgD "out" "out"
    "read timeout" (by decide) rfl (by decide) (by decide) (by decide)

/-- Claim C7: start(D, C) sets total_commands = D*C; record_device_results
counts the device successful exactly when all of its results are
successful and failed otherwise, and bumps the command counters from the
individual statuses; in the concrete 5 devices by 2 commands scenario
where exactly device sw3 fails entirely, the statistics are
successful_devices = 4, failed_devices = 1, successful_commands = 8,
failed_commands = 2. -/
theorem claim_C7_statistics :
    (∀ (s : ExecutionStats) (D C : Nat),
      (ExecutionStats.start s D C).total_commands = D * C) ∧
    (∀ (s : ExecutionStats) (rs : List ExecutionResult),
      (s.record_device_results rs).successful_devices
        = s.successful_devices
          + (if rs.all (fun r => r.is_success) then 1 else 0) ∧
      (s.record_device_results rs).failed_devices
        = s.failed_devices
          + (if rs.all (fun r => r.is_success) then 0 else 1) ∧
      (s.record_device_results rs).successful_commands
        = s.successful_commands + rs.countP (fun r => r.is_success) ∧
      (s.record_device_results rs).failed_commands
        = s.failed_commands + rs.countP (fun r => !r.is_success)) ∧
    (execute_on_devices env5 [d1, d2, d3, d4, d5] [cT, cU] cfgD).2
      = { total_devices := 5, completed_devices := 5,
          successful_devices := 4, failed_devices := 1,
          total_commands := 10, successful_commands := 8,
          failed_commands := 2 } := by
  refine ⟨fun s D C => rfl, fun s rs => ?_, by decide⟩
  have h := record_device_results_fields s rs
  exact ⟨h.2.1, h.2.2.1, h.2.2.2.1, h.2.2.2.2.1⟩

/-- Claim C8, amended: for every device list with pairwise distinct
devices, command list, batch size (at least 1) and configuration, batched
mode produces exactly the result collection and statistics of repeated
invocation of the orchestrator over consecutive fixed-size slices with
statistics accumulated across chunks, which in turn equal a single
sequential run over the whole device list.  (As stated, the claim fails
when the device list contains duplicate devices: the batched mode
re-derives each per-device result slice by filtering the chunk results on
device equality, so a duplicated device has the results of both of its
occurrences recorded once per occurrence, double-counting the command
statistics.) -/
theorem claim_C8_batched_equivalence (env : Device → DeviceBehavior)
    (devices : List Device) (commands : List Command) (batch_size : Nat)
    (cfg : SSHConfig) (hnd : devices.Nodup) (hbs : 1 ≤ batch_size) :
    execute_on_device_batches env devices commands batch_size cfg
      = repeatedRunOverSlices env devices commands batch_size cfg ∧
    repeatedRunOverSlices env devices commands batch_size cfg
      = execute_on_devices env devices commands cfg :=
  ⟨batched_eq_repeated env devices commands batch_size cfg hnd,
   repeatedRunOverSlices_eq_run env devices commands batch_size cfg hbs⟩

/-- Claim C8 counterexample: with the same device listed twice, one
command and batch size 2, batched mode counts 4 successful commands while
repeated invocation over slices counts 2, so the two runs differ. -/
theorem claim_C8_counterexample :
    execute_on_device_batches envOk [dT, dT] [cT] 2 cfgD
      ≠ repeatedRunOverSlices envOk [dT, dT] [cT] 2 cfgD ∧
    (execute_on_device_batches envOk [dT, dT] [cT] 2 cfgD).2.successful_commands
      = 4 ∧
    (repeatedRunOverSlices envOk [dT, dT] [cT] 2 cfgD).2.successful_commands
      = 2 := by
  refine ⟨?_, by decide, by decide⟩
  decide

/-- Witness for claim C8: two distinct devices, one command, batch size 1:
batched mode, repeated slices and the single run coincide. -/
theorem claim_C8_witness :
    execute_on_device_batches envOk [dT, dU] [cT] 1 cfgD
      = repeatedRunOverSlices envOk [dT, dU] [cT] 1 cfgD ∧
    repeatedRunOverSlices envOk [dT, dU] [cT] 1 cfgD
      = execute_on_devices envOk [dT, dU] [cT] cfgD :=
  claim_C8_batched_equivalence envOk [dT, dU] [cT] 1 cfgD (by decide)
    (by decide)

/-- Claim C9: every ExecutionResult returned by the orchestrator is
well-formed: its output text is empty whenever its status is a failure,
and its error description is empty (none) whenever its status is
success. -/
theorem claim_C9_wellformed (env : Device → DeviceBehavior)
    (devices : List Device) (commands : List Command) (cfg : SSHConfig) :
    ∀ r ∈ (execute_on_devices env devices commands cfg).1,
      (r.is_failure = true → r.output = "") ∧
      (r.is_success = true → r.error = none) := by
  intro r hr
  obtain ⟨dev, _, hmem⟩ :=
    mem_execute_on_devices env devices commands cfg r hr
  have h := execute_commands_shape dev (env dev) commands cfg r hmem
  constructor
  · intro hf
    apply h.2.2.2.1
    intro hsucc
    simp [ExecutionResult.is_failure, hsucc] at hf
  · intro hs
    exact h.2.2.2.2 (eq_of_beq hs)

/-- Witness for claim C9: the synthetic connection-timeout result of a
concrete run has empty output. -/
theorem claim_C9_witness :
    ({ device := dT, command := cT, status := ExecutionStatus.TIMEOUT,
       output := "", error := some "Connection timeout: Timeout",
       retries := 0 } : ExecutionResult).output = "" :=
  (claim_C9_wellformed envT [dT] [cT] cfgD _ (by decide)).1 (by decide)

/-- Claim C10: is_failure holds exactly when the status is FAILED or
TIMEOUT, and a result whose status is AUTH_FAILED, SKIPPED, PENDING or
RUNNING satisfies neither is_success nor is_failure: the two predicates do
not partition the status space. -/
theorem claim_C10_status_predicates :
    ∀ r : ExecutionResult,
      (r.is_failure = true ↔
        (r.status = ExecutionStatus.FAILED ∨
         r.status = ExecutionStatus.TIMEOUT)) ∧
      ((r.status = ExecutionStatus.AUTH_FAILED ∨
        r.status = ExecutionStatus.SKIPPED ∨
        r.status = ExecutionStatus.PENDING ∨
        r.status = ExecutionStatus.RUNNING) →
        r.is_success = false ∧ r.is_failure = false) := by
  intro r
  obtain ⟨dev, c, st, o, e, k⟩ := r
  cases st <;>
    simp [ExecutionResult.is_failure, ExecutionResult.is_success]

/-- Witness for claim C10: a result with status AUTH_FAILED satisfies
neither predicate. -/
theorem claim_C10_witness :
    rAuth.is_success = false ∧ rAuth.is_failure = false :=
  (claim_C10_status_predicates rAuth).2 (Or.inl rfl)

end NetmikoCollector
